import Mathlib

/-!
# Verification of `use-watermark` (src/lib/useWatermark.ts)

Shallow embedding of the watermark tile pipeline:

* `hexToRgba`    — the color/alpha compositor (source lines 132-137), including a
  faithful model of JavaScript `parseInt(·, 16)` (sign, optional `0x` prefix,
  greedy digit consumption, `NaN` as `none`).
* `computeTileSide`, `watermarkDrawCommands`, `createWatermarkImage` — the tile
  geometry calculator and renderer (source lines 82-130).  The ambient browser
  facilities (device pixel ratio, `measureText`, `getContext('2d')`,
  rasterization + PNG encoding) are an explicit environment record.
* `memoDeps` / `recomputesWatermark` — the reactive recomputation trigger of the
  `useWatermark` hook (source lines 58-61): React's `useMemo` recomputes exactly
  when the dependency array changes.

JavaScript numbers are modelled as real numbers; `NaN` results of `parseInt`
are modelled as `none : Option ℤ`.
-/

/-- JavaScript `String.prototype.slice(i, j)` on a list of characters
(for `0 ≤ i ≤ j`, as used in the source). -/
def jsSlice (cs : List Char) (i j : Nat) : List Char :=
  (cs.drop i).take (j - i)

/-- Value of a hexadecimal digit character, `none` if the character is not a
hex digit.  This is the digit alphabet of JavaScript `parseInt(·, 16)`. -/
def hexDigitVal (c : Char) : Option ℤ :=
  if '0' ≤ c ∧ c ≤ '9' then some (c.toNat - '0'.toNat : ℕ)
  else if 'a' ≤ c ∧ c ≤ 'f' then some ((c.toNat - 'a'.toNat : ℕ) + 10)
  else if 'A' ≤ c ∧ c ≤ 'F' then some ((c.toNat - 'A'.toNat : ℕ) + 10)
  else none

/-- Whitespace skipped by JavaScript `parseInt` (the ASCII part, which is all
that can occur in the strings of interest). -/
def isJsWhitespace (c : Char) : Bool :=
  c = ' ' || c = '\t' || c = '\n' || c = '\r' || c = '\x0b' || c = '\x0c'

/-- JavaScript `parseInt(s, 16)`: skip leading whitespace, an optional sign,
an optional `0x`/`0X` prefix, then greedily consume hex digits; the result is
`NaN` (modelled as `none`) when no digit was consumed. -/
def jsParseIntHex (cs : List Char) : Option ℤ :=
  let cs1 := cs.dropWhile isJsWhitespace
  let sign : ℤ := if cs1.head? = some '-' then -1 else 1
  let cs2 := if cs1.head? = some '-' ∨ cs1.head? = some '+' then cs1.tail else cs1
  let cs3 :=
    if cs2.head? = some '0' ∧ (cs2.tail.head? = some 'x' ∨ cs2.tail.head? = some 'X')
    then cs2.tail.tail else cs2
  let digits := (cs3.takeWhile fun c => (hexDigitVal c).isSome).filterMap hexDigitVal
  if digits = [] then none
  else some (sign * digits.foldl (fun acc d => 16 * acc + d) 0)

/-- The resolved color the renderer uses as fill style.  The source formats it
as the CSS string `rgba(r, g, b, a)`; the string is determined by these four
components, with a `NaN` channel modelled as `none`. -/
@[ext]
structure Rgba where
  r : Option ℤ
  g : Option ℤ
  b : Option ℤ
  a : ℝ

/-- Source lines 132-137: channels are parsed with `parseInt(hex.slice(…), 16)`
and `alpha` is passed through verbatim. -/
def hexToRgba (hex : String) (alpha : ℝ) : Rgba :=
  { r := jsParseIntHex (jsSlice hex.data 1 3)
    g := jsParseIntHex (jsSlice hex.data 3 5)
    b := jsParseIntHex (jsSlice hex.data 5 7)
    a := alpha }

/-- Source line 86: `window.devicePixelRatio || 1` — a falsy (zero) ambient
pixel ratio falls back to `1`. -/
noncomputable def resolveDpr (x : ℝ) : ℝ :=
  if x = 0 then 1 else x

/-- Source line 100: the square canvas side,
`Math.ceil(Math.sqrt(textWidth ** 2 + textHeight ** 2))`. -/
noncomputable def computeTileSide (textWidth textHeight : ℝ) : ℤ :=
  ⌈Real.sqrt (textWidth ^ 2 + textHeight ^ 2)⌉

/-- The mutable style state of a 2D canvas context that the renderer sets
before `fillText` (lines 101-126): the canvas dimensions, the scale transform,
the translation to the center, the rotation in radians, the font size used for
drawing, the fill style and the text drawn at the origin.  Together with the
environment's rasterizer these determine the produced pixels. -/
structure DrawCommands where
  canvasSize : ℤ
  scale : ℝ
  translate : ℝ × ℝ
  rotate : ℝ
  fontPx : ℝ
  fillStyle : Rgba
  text : String

/-- The ambient browser facilities the source reads: the device pixel ratio
(line 86), the text-measurement facility `ctx.measureText` after `ctx.font`
was set to a given pixel size of `sans-serif` (lines 92-94), whether
`canvas.getContext('2d')` yields a context (line 90), and the deterministic
rasterization + PNG encoding behind `canvas.toDataURL` (line 129). -/
structure RenderEnv where
  devicePixelRatio : ℝ
  measureText : ℝ → String → ℝ
  contextAvailable : Bool
  rasterize : DrawCommands → String

/-- The `WatermarkImageOption` record of the source (lines 4-30). -/
structure WatermarkImageOption where
  fontSize : ℝ
  angle : ℝ
  opacity : ℝ
  color : String

/-- Result of `createWatermarkImage`.  The source has no error channel: it
either returns a data URL or, when `canvas.getContext('2d')` returns `null`,
the non-null assertion on line 90 lets the subsequent property access throw an
uncaught `TypeError`.  The `err` constructor carries the error kinds required
by the design (never produced by the source as written). -/
inductive WatermarkError where
  | InvalidStyleParameter
  | InvalidColorFormat
  | RenderUnavailable
  | MeasurementUnavailable
deriving DecidableEq

inductive RenderResult where
  | ok (dataUrl : String)
  | err (e : WatermarkError)
  | thrown (msg : String)
deriving DecidableEq

/-- The state `createWatermarkImage` puts the canvas context into before the
final `toDataURL` (source lines 92-126), assuming a context was obtained:
measure the text at `fontSize * devicePixelRatio`, take the font size as the
text height, size the canvas by `computeTileSide`, scale by the pixel ratio,
translate to the center, rotate by `angle` degrees, set font, fill style, and
draw the text at the origin. -/
noncomputable def watermarkDrawCommands (env : RenderEnv) (text : String)
    (o : WatermarkImageOption) : DrawCommands :=
  let dpr := resolveDpr env.devicePixelRatio
  let textWidth := env.measureText (o.fontSize * dpr) text
  let textHeight := o.fontSize * dpr
  let canvasSize := computeTileSide textWidth textHeight
  { canvasSize := canvasSize
    scale := dpr
    translate := ((canvasSize : ℝ) / (2 * dpr), (canvasSize : ℝ) / (2 * dpr))
    rotate := o.angle * Real.pi / 180
    fontPx := o.fontSize
    fillStyle := hexToRgba o.color o.opacity
    text := text }

/-- Source lines 82-130.  When no 2D context is available the non-null
assertion makes the first use of `ctx` throw; otherwise the canvas is driven
through `watermarkDrawCommands` and encoded to a data URL. -/
noncomputable def createWatermarkImage (env : RenderEnv) (text : String)
    (o : WatermarkImageOption) : RenderResult :=
  if env.contextAvailable then
    RenderResult.ok (env.rasterize (watermarkDrawCommands env text o))
  else
    RenderResult.thrown "TypeError: ctx is null"

/-- The inputs governing one watermark image inside the `useWatermark` hook. -/
structure WatermarkInputs where
  text : String
  fontSize : ℝ
  angle : ℝ
  opacity : ℝ
  color : String

/-- Source lines 58-61: the dependency array of the `useMemo` that caches the
watermark image is `[text, fontSize, angle, opacity]` — `color` is absent. -/
def memoDeps (i : WatermarkInputs) : String × ℝ × ℝ × ℝ :=
  (i.text, i.fontSize, i.angle, i.opacity)

/-- React recomputes a `useMemo` value exactly when its dependency array
changed between renders. -/
def recomputesWatermark (prev next : WatermarkInputs) : Prop :=
  memoDeps prev ≠ memoDeps next

/-- A concrete environment for evaluating the pipeline: pixel ratio 1, a
measurement facility reporting advance width 0 for every string, a context
available, and a trivial encoder. -/
noncomputable def testEnv : RenderEnv :=
  { devicePixelRatio := 1
    measureText := fun _ _ => 0
    contextAvailable := true
    rasterize := fun _ => "data:image/png;base64," }

/-- `testEnv` in an environment where `canvas.getContext('2d')` yields `null`. -/
noncomputable def testEnvNoCtx : RenderEnv :=
  { testEnv with contextAvailable := false }

/-- A character accepted by `parseInt(·, 16)` as a digit is not one of the
whitespace characters it skips. -/
theorem ws_hexDigitVal {c : Char} (h : isJsWhitespace c = true) : hexDigitVal c = none := by
  simp only [isJsWhitespace, Bool.or_eq_true, decide_eq_true_eq] at h
  rcases h with ((((h | h) | h) | h) | h) | h <;> subst h <;> decide

/-- `parseInt` on a two-character string of hex digits yields the base-16
value of the pair. -/
theorem jsParseIntHex_pair {c₁ c₂ : Char} {v₁ v₂ : ℤ}
    (h₁ : hexDigitVal c₁ = some v₁) (h₂ : hexDigitVal c₂ = some v₂) :
    jsParseIntHex [c₁, c₂] = some (16 * v₁ + v₂) := by
  have hw : isJsWhitespace c₁ = false := by
    cases hws : isJsWhitespace c₁
    · rfl
    · rw [ws_hexDigitVal hws] at h₁; cases h₁
  have hm : c₁ ≠ '-' := by
    rintro rfl
    rw [(by decide : hexDigitVal '-' = none)] at h₁; cases h₁
  have hp : c₁ ≠ '+' := by
    rintro rfl
    rw [(by decide : hexDigitVal '+' = none)] at h₁; cases h₁
  have hx : c₂ ≠ 'x' := by
    rintro rfl
    rw [(by decide : hexDigitVal 'x' = none)] at h₂; cases h₂
  have hX : c₂ ≠ 'X' := by
    rintro rfl
    rw [(by decide : hexDigitVal 'X' = none)] at h₂; cases h₂
  simp [jsParseIntHex, List.dropWhile, hw, hm, hp, hx, hX, List.takeWhile, h₁, h₂]

/-- Claim C1: the tile side computed by the render pipeline equals
`ceil(sqrt(w^2 + h^2))`, where `w` is the measured advance width of the text at
`fontSize * pixelScale` and `h = fontSize * pixelScale`; in particular, for
zero-length text `w = 0` and the side equals `ceil(h)`. -/
theorem tileSide_eq_ceil_hypot (env : RenderEnv) (text : String)
    (o : WatermarkImageOption)
    (hh : 0 ≤ o.fontSize * resolveDpr env.devicePixelRatio) :
    (watermarkDrawCommands env text o).canvasSize =
      ⌈Real.sqrt ((env.measureText (o.fontSize * resolveDpr env.devicePixelRatio) text) ^ 2
        + (o.fontSize * resolveDpr env.devicePixelRatio) ^ 2)⌉ ∧
    (env.measureText (o.fontSize * resolveDpr env.devicePixelRatio) "" = 0 →
      (watermarkDrawCommands env "" o).canvasSize =
        ⌈o.fontSize * resolveDpr env.devicePixelRatio⌉) := by
  constructor
  · rfl
  · intro hm
    unfold watermarkDrawCommands computeTileSide
    simp only [hm]
    rw [show (0:ℝ) ^ 2 + (o.fontSize * resolveDpr env.devicePixelRatio) ^ 2
          = (o.fontSize * resolveDpr env.devicePixelRatio) ^ 2 by ring]
    rw [Real.sqrt_sq hh]

/-- Witness for C1: with pixel ratio 1 and font size 14, the empty text
yields a tile side of exactly 14. -/
theorem tileSide_eq_ceil_hypot_witness :
    (watermarkDrawCommands testEnv "" ⟨14, -45, 0.05, "#000000"⟩).canvasSize = 14 := by
  have hd : resolveDpr testEnv.devicePixelRatio = 1 := by
    show resolveDpr 1 = 1
    simp [resolveDpr]
  have h := (tileSide_eq_ceil_hypot testEnv "" ⟨14, -45, 0.05, "#000000"⟩
    (by rw [hd]; norm_num)).2 rfl
  rw [h, hd]
  norm_num

/-- Claim C2: the computed tile side is the same for every angle value — the
side length does not depend on the angle parameter at all. -/
theorem tileSide_angle_invariant (env : RenderEnv) (text : String)
    (fontSize opacity : ℝ) (color : String) (a₁ a₂ : ℝ) :
    (watermarkDrawCommands env text ⟨fontSize, a₁, opacity, color⟩).canvasSize =
    (watermarkDrawCommands env text ⟨fontSize, a₂, opacity, color⟩).canvasSize := rfl

/-- Claim C3: for every 7-character string of the form `#RRGGBB` and every
opacity, the color resolver returns `(r, g, b, opacity)` with each channel
pair parsed as a base-16 integer; the alpha component is the supplied opacity
verbatim. -/
theorem hexToRgba_valid (c₁ c₂ c₃ c₄ c₅ c₆ : Char) (v₁ v₂ v₃ v₄ v₅ v₆ : ℤ)
    (s : String) (a : ℝ)
    (hs : s.data = ['#', c₁, c₂, c₃, c₄, c₅, c₆])
    (h₁ : hexDigitVal c₁ = some v₁) (h₂ : hexDigitVal c₂ = some v₂)
    (h₃ : hexDigitVal c₃ = some v₃) (h₄ : hexDigitVal c₄ = some v₄)
    (h₅ : hexDigitVal c₅ = some v₅) (h₆ : hexDigitVal c₆ = some v₆) :
    hexToRgba s a =
      ⟨some (16 * v₁ + v₂), some (16 * v₃ + v₄), some (16 * v₅ + v₆), a⟩ := by
  unfold hexToRgba jsSlice
  rw [hs]
  norm_num
  exact ⟨jsParseIntHex_pair h₁ h₂, jsParseIntHex_pair h₃ h₄, jsParseIntHex_pair h₅ h₆⟩

/-- Witness for C3: `hexToRgba "#000000" 0.05 = (0, 0, 0, 0.05)` and
`hexToRgba "#FFFFFF" 1 = (255, 255, 255, 1)`. -/
theorem hexToRgba_valid_witness :
    hexToRgba "#000000" 0.05 = ⟨some 0, some 0, some 0, 0.05⟩ ∧
    hexToRgba "#FFFFFF" 1 = ⟨some 255, some 255, some 255, 1⟩ := by
  constructor
  · have h := hexToRgba_valid '0' '0' '0' '0' '0' '0' 0 0 0 0 0 0 "#000000" 0.05
      (by decide) (by decide) (by decide) (by decide) (by decide) (by decide) (by decide)
    rw [h]; norm_num
  · have h := hexToRgba_valid 'F' 'F' 'F' 'F' 'F' 'F' 15 15 15 15 15 15 "#FFFFFF" 1
      (by decide) (by decide) (by decide) (by decide) (by decide) (by decide) (by decide)
    rw [h]; norm_num

/-- Claim C4, counter-evidence (the code has no error path): on the malformed
input `"bad-color"` the resolver does not fail — it returns a color whose blue
channel is `NaN` (`none`), with `r = 173` and the out-of-range `g = -12`. -/
theorem hexToRgba_badColor :
    hexToRgba "bad-color" 0.5 = ⟨some 173, some (-12), none, 0.5⟩ := by
  unfold hexToRgba
  norm_num
  refine ⟨by decide, by decide, by decide⟩

/-- Claim C5, counter-evidence: with `fontSize = 0` (and a measurement of 0,
as a 0px font measures) the pipeline silently builds a degenerate zero-area
tile (`canvasSize = 0`) and never surfaces any error — in particular not
`InvalidStyleParameter`. -/
theorem createWatermarkImage_zeroFontSize (env : RenderEnv) (text : String)
    (angle opacity : ℝ) (color : String)
    (hctx : env.contextAvailable = true)
    (hm : env.measureText (0 * resolveDpr env.devicePixelRatio) text = 0) :
    (watermarkDrawCommands env text ⟨0, angle, opacity, color⟩).canvasSize = 0 ∧
    ∀ e : WatermarkError,
      createWatermarkImage env text ⟨0, angle, opacity, color⟩ ≠ RenderResult.err e := by
  constructor
  · have hm0 : env.measureText 0 text = 0 := by rwa [zero_mul] at hm
    unfold watermarkDrawCommands computeTileSide
    simp [hm0]
  · intro e
    unfold createWatermarkImage
    rw [hctx]
    simp

/-- Witness for C5: at `fontSize = 0` the concrete environment yields a
zero-area tile and no `InvalidStyleParameter` failure. -/
theorem createWatermarkImage_zeroFontSize_witness :
    (watermarkDrawCommands testEnv "CONFIDENTIAL" ⟨0, -45, 0.05, "#000000"⟩).canvasSize = 0 ∧
    createWatermarkImage testEnv "CONFIDENTIAL" ⟨0, -45, 0.05, "#000000"⟩ ≠
      RenderResult.err WatermarkError.InvalidStyleParameter := by
  have h := createWatermarkImage_zeroFontSize testEnv "CONFIDENTIAL" (-45) 0.05 "#000000" rfl rfl
  exact ⟨h.1, h.2 _⟩

/-- Claim C6, counter-evidence: when no 2D context can be acquired, the
non-null assertion makes the render throw an uncaught `TypeError`; it never
produces an explicit `RenderUnavailable` error. -/
theorem createWatermarkImage_noContext (env : RenderEnv) (text : String)
    (o : WatermarkImageOption) (h : env.contextAvailable = false) :
    createWatermarkImage env text o = RenderResult.thrown "TypeError: ctx is null" ∧
    ∀ e : WatermarkError, createWatermarkImage env text o ≠ RenderResult.err e := by
  unfold createWatermarkImage
  rw [h]
  simp

/-- Witness for C6: in a concrete environment without a 2D context the render
throws and is not a `RenderUnavailable` error. -/
theorem createWatermarkImage_noContext_witness :
    createWatermarkImage testEnvNoCtx "WATERMARK" ⟨14, -45, 0.05, "#000000"⟩ =
      RenderResult.thrown "TypeError: ctx is null" ∧
    createWatermarkImage testEnvNoCtx "WATERMARK" ⟨14, -45, 0.05, "#000000"⟩ ≠
      RenderResult.err WatermarkError.RenderUnavailable := by
  have h := createWatermarkImage_noContext testEnvNoCtx "WATERMARK" ⟨14, -45, 0.05, "#000000"⟩ rfl
  exact ⟨h.1, h.2 _⟩

/-- Claim C7: the cached tile is recomputed exactly when one of `text`,
`fontSize`, `angle`, or `opacity` changes; a change to `color` alone does not
trigger recomputation. -/
theorem recomputesWatermark_iff (prev next : WatermarkInputs) :
    (recomputesWatermark prev next ↔
      prev.text ≠ next.text ∨ prev.fontSize ≠ next.fontSize ∨
      prev.angle ≠ next.angle ∨ prev.opacity ≠ next.opacity) ∧
    (prev.text = next.text → prev.fontSize = next.fontSize →
      prev.angle = next.angle → prev.opacity = next.opacity →
      ¬recomputesWatermark prev next) := by
  constructor
  · unfold recomputesWatermark memoDeps
    simp [Prod.ext_iff]
    tauto
  · intro h1 h2 h3 h4
    unfold recomputesWatermark memoDeps
    simp [h1, h2, h3, h4]

/-- Witness for C7: changing only the color from black to white does not
invalidate the cached tile. -/
theorem recomputesWatermark_iff_witness :
    ¬recomputesWatermark ⟨"CONFIDENTIAL", 14, -45, 0.05, "#000000"⟩
      ⟨"CONFIDENTIAL", 14, -45, 0.05, "#FFFFFF"⟩ :=
  (recomputesWatermark_iff _ _).2 rfl rfl rfl rfl

/-- Claim C8: the render pipeline is deterministic — in a fixed environment
(same pixel scale, measurement and rasterization facilities), two calls with
identical `(text, fontSize, angle, opacity, color)` produce identical encoded
output. -/
theorem createWatermarkImage_deterministic (env : RenderEnv) (t₁ t₂ : String)
    (o₁ o₂ : WatermarkImageOption) (ht : t₁ = t₂) (hf : o₁.fontSize = o₂.fontSize)
    (ha : o₁.angle = o₂.angle) (ho : o₁.opacity = o₂.opacity)
    (hc : o₁.color = o₂.color) :
    createWatermarkImage env t₁ o₁ = createWatermarkImage env t₂ o₂ := by
  cases o₁
  cases o₂
  simp only at hf ha ho hc
  subst ht hf ha ho hc
  rfl

/-- Witness for C8: two calls with fieldwise-identical inputs agree. -/
theorem createWatermarkImage_deterministic_witness :
    createWatermarkImage testEnv "CONFIDENTIAL" ⟨14, -45, 0.05, "#000000"⟩ =
    createWatermarkImage testEnv "CONFIDENTIAL" ⟨7 + 7, -45, 0.05, "#000000"⟩ :=
  createWatermarkImage_deterministic testEnv _ _ _ _ rfl (by norm_num) rfl rfl rfl

/-- Claim C9: the tile side is monotonically non-decreasing in the measured
text width and in the font size (at any non-negative pixel scale). -/
theorem computeTileSide_mono (ps w₁ w₂ f₁ f₂ : ℝ) (hps : 0 ≤ ps)
    (hw0 : 0 ≤ w₁) (hw : w₁ ≤ w₂) (hf0 : 0 ≤ f₁) (hf : f₁ ≤ f₂) :
    computeTileSide w₁ (f₁ * ps) ≤ computeTileSide w₂ (f₂ * ps) := by
  unfold computeTileSide
  apply Int.ceil_le_ceil
  apply Real.sqrt_le_sqrt
  have h1 : w₁ ^ 2 ≤ w₂ ^ 2 := pow_le_pow_left₀ hw0 hw 2
  have h2 : (f₁ * ps) ^ 2 ≤ (f₂ * ps) ^ 2 :=
    pow_le_pow_left₀ (mul_nonneg hf0 hps) (mul_le_mul_of_nonneg_right hf hps) 2
  linarith

/-- Witness for C9: growing the width from 3 to 4 and the font size from 4 to
5 does not shrink the side. -/
theorem computeTileSide_mono_witness :
    computeTileSide 3 (4 * 1) ≤ computeTileSide 4 (5 * 1) :=
  computeTileSide_mono 1 3 4 4 5 (by norm_num) (by norm_num) (by norm_num)
    (by norm_num) (by norm_num)

/-- Lists agreeing on their first six elements agree on any window of `k`
elements starting at position `i` with `i + k ≤ 6`. -/
theorem drop_take_agree {α : Type} (d₁ d₂ : List α) (h : d₁.take 6 = d₂.take 6)
    (i k : Nat) (hik : i + k ≤ 6) :
    (d₁.drop i).take k = (d₂.drop i).take k := by
  have e : ∀ d : List α, (d.drop i).take k = ((d.take 6).drop i).take k := by
    intro d
    rw [List.drop_take, List.take_take]
    congr 1
    omega
  rw [e d₁, e d₂, h]

/-- Claim C10: the color resolver never inspects the first character or any
character past index 6 — for strings of length at least 7 the result depends
only on the characters at indices 1 through 6, so a missing or wrong `#`
prefix is accepted unchecked and trailing characters are ignored. -/
theorem hexToRgba_depends_only_on_1_to_6 (s₁ s₂ : String) (a : ℝ)
    (hl₁ : 7 ≤ s₁.length) (hl₂ : 7 ≤ s₂.length)
    (hagree : (s₁.data.drop 1).take 6 = (s₂.data.drop 1).take 6) :
    hexToRgba s₁ a = hexToRgba s₂ a := by
  have h13 : (s₁.data.drop 1).take 2 = (s₂.data.drop 1).take 2 := by
    simpa using drop_take_agree _ _ hagree 0 2 (by omega)
  have h35 : (s₁.data.drop 3).take 2 = (s₂.data.drop 3).take 2 := by
    have := drop_take_agree _ _ hagree 2 2 (by omega)
    simpa [List.drop_drop] using this
  have h57 : (s₁.data.drop 5).take 2 = (s₂.data.drop 5).take 2 := by
    have := drop_take_agree _ _ hagree 4 2 (by omega)
    simpa [List.drop_drop] using this
  unfold hexToRgba jsSlice
  norm_num
  exact ⟨congrArg _ (by simpa [List.drop_one] using h13), congrArg _ h35, congrArg _ h57⟩

/-- Witness for C10: a string with a trailing alpha pair and a string with a
wrong prefix character resolve to the same color. -/
theorem hexToRgba_depends_only_on_1_to_6_witness :
    7 ≤ ("#000000AA" : String).length ∧ 7 ≤ ("x000000" : String).length ∧
    hexToRgba "#000000AA" 0.5 = hexToRgba "x000000" 0.5 :=
  ⟨by decide, by decide,
    hexToRgba_depends_only_on_1_to_6 "#000000AA" "x000000" 0.5
      (by decide) (by decide) (by decide)⟩
